import Mathlib

/-!
Verification of the scheduling rules evaluator of the Tipton County
probation appointment application.

The development shallowly embeds the rules evaluator
(src/agent/tipton_scheduler.py): day classification, office-hours and
lunch-lockout checks, missed-appointment rescheduling options, and the
composed appointment validation.  Timestamps are modelled as civil
date/time records; the time of day is a count of seconds since
midnight, which mirrors the lexicographic ordering of the source
language's time-of-day values.  The Gregorian weekday is computed from
the proleptic ordinal exactly as the source runtime computes it.
-/

namespace Tipton

/-- Classification of day types for scheduling (enum DayType). -/
inductive DayType where
  | WALK_IN
  | COURT_DAY
  | LATE_THURSDAY
  | PHONE_ONLY
deriving DecidableEq, Repr

/-- Result object for scheduling operations (class ScheduleResult):
a boolean, a primary message, and an optional advisory. -/
structure ScheduleResult where
  allowed : Bool
  message : String
  warning : Option String := none
deriving DecidableEq, Repr

/-- Leap-year test, as in calendar.isleap. -/
def isLeapYear (y : Nat) : Bool :=
  y % 4 == 0 && (y % 100 != 0 || y % 400 == 0)

/-- Number of days in a month, as reported by calendar.monthrange. -/
def daysInMonth (y m : Nat) : Nat :=
  if m = 2 then (if isLeapYear y then 29 else 28)
  else if m = 4 ∨ m = 6 ∨ m = 9 ∨ m = 11 then 30
  else 31

/-- Days in the years before year y (proleptic Gregorian). -/
def daysBeforeYear (y : Nat) : Nat :=
  365 * (y - 1) + (y - 1) / 4 - (y - 1) / 100 + (y - 1) / 400

/-- Days in year y before month m. -/
def daysBeforeMonth (y : Nat) : Nat → Nat
  | 0 => 0
  | 1 => 0
  | n + 1 => daysBeforeMonth y n + daysInMonth y n

/-- Seconds since midnight for a clock time of h hours and mi minutes. -/
def timeOfDay (h mi : Nat) : Nat := h * 3600 + mi * 60

/-- A civil timestamp: calendar date, time of day in seconds since
midnight, and whether timezone information is attached.  The evaluator
treats a timestamp without timezone information as already being in the
fixed America/Chicago zone. -/
structure Datetime where
  year : Nat
  month : Nat
  day : Nat
  tod : Nat
  hasTz : Bool
deriving DecidableEq, Repr

/-- Proleptic Gregorian ordinal of the timestamp's date (ordinal 1 is
January 1 of year 1), as in datetime.toordinal. -/
def Datetime.toOrdinal (dt : Datetime) : Nat :=
  daysBeforeYear dt.year + daysBeforeMonth dt.year dt.month + dt.day

/-- Weekday index of the timestamp, as in datetime.weekday:
0 is Monday through 6 is Sunday. -/
def Datetime.weekday (dt : Datetime) : Nat :=
  (dt.toOrdinal + 6) % 7

/-- The timestamp datetime(y, m, d, tzinfo=TZ): midnight of the given
date with the fixed zone attached. -/
def mkDate (y m d : Nat) : Datetime := ⟨y, m, d, 0, true⟩

/-- A timestamp is valid when its date is a real calendar date and its
time of day fits within one day. -/
def Datetime.Valid (dt : Datetime) : Prop :=
  1 ≤ dt.year ∧ 1 ≤ dt.month ∧ dt.month ≤ 12 ∧
  1 ≤ dt.day ∧ dt.day ≤ daysInMonth dt.year dt.month ∧ dt.tod < 86400

instance (dt : Datetime) : Decidable dt.Valid := by
  unfold Datetime.Valid; infer_instance

/-- dt.replace(tzinfo=self.tz) applied when the input is naive:
attaches the fixed zone without converting any date or time field. -/
def normTz (dt : Datetime) : Datetime :=
  if dt.hasTz then dt else { dt with hasTz := true }

/-- Time constants of the scheduler (class attributes). -/
def OFFICE_OPEN : Nat := timeOfDay 8 0
def OFFICE_CLOSE : Nat := timeOfDay 17 0
def LAST_APPOINTMENT : Nat := timeOfDay 16 30
def LUNCH_START : Nat := timeOfDay 12 0
def LUNCH_END : Nat := timeOfDay 13 0
def LUNCH_CUTOFF : Nat := timeOfDay 11 30
def AFTER_HOURS_START : Nat := timeOfDay 17 0
def AFTER_HOURS_END : Nat := timeOfDay 19 30

/-- Which Thursday of the month this is (_get_thursday_number), using
floor division as the source language does. -/
def getThursdayNumber (dt : Datetime) : Int :=
  Int.fdiv ((dt.day : Int) - 1) 7 + 1

/-- Whether the timestamp falls on a 1st or 3rd Thursday
(_is_late_thursday). -/
def isLateThursday (dt : Datetime) : Bool :=
  if dt.weekday ≠ 3 then false
  else decide (getThursdayNumber dt = 1 ∨ getThursdayNumber dt = 3)

/-- Day classification (get_day_type). -/
def get_day_type (dt : Datetime) : DayType :=
  if dt.weekday = 0 ∨ dt.weekday = 2 then DayType.WALK_IN
  else if dt.weekday = 4 then DayType.PHONE_ONLY
  else if dt.weekday = 3 ∧ isLateThursday dt then DayType.LATE_THURSDAY
  else DayType.COURT_DAY

/-- Office-hours check (is_office_open). -/
def is_office_open (dt : Datetime) : ScheduleResult :=
  let dt := normTz dt
  let day_type := get_day_type dt
  let current_time := dt.tod
  if day_type = DayType.WALK_IN then
    if current_time < OFFICE_OPEN then
      { allowed := false
        message := "Office opens at 8:00 AM. Please schedule after that time." }
    else if current_time > LAST_APPOINTMENT then
      { allowed := false
        message := "The last appointment slot is 4:30 PM. Please choose an earlier time." }
    else
      { allowed := true, message := "Office is open for walk-in appointments." }
  else if day_type = DayType.LATE_THURSDAY then
    if AFTER_HOURS_START ≤ current_time ∧ current_time ≤ AFTER_HOURS_END then
      { allowed := true
        message := "After-hours appointments available (5:00 PM - 7:30 PM)." }
    else
      { allowed := false
        message := "After-hours appointments are only from 5:00 PM to 7:30 PM on 1st and 3rd Thursday." }
  else if day_type = DayType.PHONE_ONLY then
    { allowed := false
      message := "Fridays are reserved for phone reporting only. No walk-in appointments." }
  else
    { allowed := false
      message := "Walk-in appointments are not available on this day due to court obligations. Please schedule for Monday or Wednesday." }

/-- Lunch-lockout check (check_lunch_lockout). -/
def check_lunch_lockout (dt : Datetime) : ScheduleResult :=
  let dt := normTz dt
  let day_type := get_day_type dt
  let current_time := dt.tod
  if day_type ≠ DayType.WALK_IN then
    { allowed := true, message := "Lunch lockout does not apply to this day." }
  else if LUNCH_CUTOFF < current_time ∧ current_time < LUNCH_END then
    { allowed := false
      message := "LUNCH LOCKOUT: Office is closed from 12:00 PM to 1:00 PM. To be seen before lunch, you must arrive by 11:30 AM. Please schedule for 11:30 AM or earlier, or 1:00 PM or later." }
  else if timeOfDay 11 0 ≤ current_time ∧ current_time ≤ LUNCH_CUTOFF then
    { allowed := true
      message := "Appointment scheduled."
      warning := some "Note: Office closes for lunch at 12:00 PM. Arrive by 11:30 AM to be seen before lunch." }
  else
    { allowed := true, message := "No lunch lockout conflict." }

/-- Friday phone-reporting instruction (get_friday_instruction). -/
def get_friday_instruction : String :=
  "Phone reporting is active. Fridays are reserved for phone check-ins only. Please leave a message or complete your phone report now. No in-person appointments are available on Fridays."

/-- Standardized payment information message (format_payment_msg). -/
def format_payment_msg : String :=
  "Payments are CASH ONLY ($75) and collected at the time of your appointment. However, you are NOT required to have payment in order to be seen. Please report regardless of your ability to pay."

/-- Full weekday name, as strftime %A renders it. -/
def dayName : Nat → String
  | 0 => "Monday"
  | 1 => "Tuesday"
  | 2 => "Wednesday"
  | 3 => "Thursday"
  | 4 => "Friday"
  | 5 => "Saturday"
  | _ => "Sunday"

/-- Full month name, as strftime %B renders it. -/
def monthName : Nat → String
  | 1 => "January"
  | 2 => "February"
  | 3 => "March"
  | 4 => "April"
  | 5 => "May"
  | 6 => "June"
  | 7 => "July"
  | 8 => "August"
  | 9 => "September"
  | 10 => "October"
  | 11 => "November"
  | _ => "December"

/-- Day of month as strftime %d renders it: zero-padded to two digits. -/
def pad2 (n : Nat) : String :=
  if n < 10 then "0" ++ Nat.repr n else Nat.repr n

/-- strftime with format string made of %A, a comma, %B and %d, applied
to the date y-m-d, as used for rescheduling options. -/
def strftimeAMBd (y m d : Nat) : String :=
  dayName (mkDate y m d).weekday ++ ", " ++ monthName m ++ " " ++ pad2 d

/-- str.join with separator comma-space over a list of strings. -/
def joinComma : List String → String
  | [] => ""
  | [s] => s
  | s :: rest => s ++ ", " ++ joinComma rest

/-- The loop of get_missed_appointment_options: the days strictly after
the current day of month, through the last day of the month, whose
weekday is Monday (0) or Wednesday (2). -/
def availableDays (dt : Datetime) : List Nat :=
  (List.range' (dt.day + 1) (daysInMonth dt.year dt.month - dt.day)).filter
    (fun day => (mkDate dt.year dt.month day).weekday == 0 ||
                (mkDate dt.year dt.month day).weekday == 2)

/-- Rescheduling options for missed appointments
(get_missed_appointment_options). -/
def get_missed_appointment_options (dt : Datetime) : ScheduleResult :=
  let dt := normTz dt
  let available_dates :=
    (availableDays dt).map (fun day => strftimeAMBd dt.year dt.month day)
  if available_dates.isEmpty then
    { allowed := false
      message := "No available Monday or Wednesday slots remain this month. Please contact the office to schedule for next month." }
  else
    let dates_str := joinComma (available_dates.take 5)
    { allowed := true
      message := "You have a missed appointment. You can reschedule for: " ++ dates_str ++ ". Please note: Missed appointments must be rescheduled for Monday or Wednesday only." }

/-- Full validation of an appointment timestamp (validate_appointment). -/
def validate_appointment (dt : Datetime) : ScheduleResult :=
  let office_check := is_office_open dt
  if !office_check.allowed then office_check
  else
    let lunch_check := check_lunch_lockout dt
    if !lunch_check.allowed then lunch_check
    else
      { allowed := true
        message := "Appointment time is valid."
        warning := lunch_check.warning }

/-- Boolean substring test: pat occurs contiguously inside s. -/
def containsStr (s pat : String) : Bool :=
  decide (pat.data <:+: s.data)

/-- Two successive calls of a check on the same input, modelling the
idempotence observation of the stateless evaluator. -/
def callTwice (f : Datetime → ScheduleResult) (dt : Datetime) :
    ScheduleResult × ScheduleResult :=
  (f dt, f dt)

end Tipton

namespace Tipton

/-! Helper lemmas. -/

lemma weekday_lt (dt : Datetime) : dt.weekday < 7 :=
  Nat.mod_lt _ (by omega)

lemma normTz_eq (dt : Datetime) :
    normTz dt = ⟨dt.year, dt.month, dt.day, dt.tod, true⟩ := by
  cases dt with
  | mk y m d t tz => cases tz <;> rfl

lemma get_day_type_normTz (dt : Datetime) :
    get_day_type (normTz dt) = get_day_type dt := by
  rw [normTz_eq]; rfl

lemma isLateThursday_eq_true (dt : Datetime) :
    isLateThursday dt = true ↔
      dt.weekday = 3 ∧
        (getThursdayNumber dt = 1 ∨ getThursdayNumber dt = 3) := by
  unfold isLateThursday
  split
  · next h => simp [h]
  · next h =>
    push_neg at h
    simp [h]

/-- C1: get_day_type is total — it always returns one of the four
categories — and returns WALK_IN exactly on weekday 0 or 2 (Monday,
Wednesday), PHONE_ONLY exactly on weekday 4 (Friday), LATE_THURSDAY
exactly on a Thursday whose ordinal occurrence (day - 1 floor-divided
by 7, plus 1) is 1 or 3, and COURT_DAY in every remaining case:
Tuesday, a Thursday whose ordinal is not 1 or 3, Saturday, Sunday. -/
theorem claim_C1 (dt : Datetime) :
    (get_day_type dt = DayType.WALK_IN ∨ get_day_type dt = DayType.COURT_DAY ∨
     get_day_type dt = DayType.LATE_THURSDAY ∨ get_day_type dt = DayType.PHONE_ONLY) ∧
    (get_day_type dt = DayType.WALK_IN ↔ dt.weekday = 0 ∨ dt.weekday = 2) ∧
    (get_day_type dt = DayType.PHONE_ONLY ↔ dt.weekday = 4) ∧
    (get_day_type dt = DayType.LATE_THURSDAY ↔
      dt.weekday = 3 ∧ (getThursdayNumber dt = 1 ∨ getThursdayNumber dt = 3)) ∧
    (get_day_type dt = DayType.COURT_DAY ↔
      dt.weekday = 1 ∨ dt.weekday = 5 ∨ dt.weekday = 6 ∨
      (dt.weekday = 3 ∧ ¬(getThursdayNumber dt = 1 ∨ getThursdayNumber dt = 3))) := by
  have hlt := weekday_lt dt
  have hl := isLateThursday_eq_true dt
  refine ⟨?_, ?_⟩
  · unfold get_day_type
    split_ifs <;> simp
  · unfold get_day_type
    split_ifs with h1 h2 h3 <;> simp_all <;> omega

end Tipton

namespace Tipton

lemma check_lunch_lockout_eq (dt : Datetime) :
    check_lunch_lockout dt =
      if get_day_type dt ≠ DayType.WALK_IN then
        { allowed := true, message := "Lunch lockout does not apply to this day.",
          warning := none }
      else if LUNCH_CUTOFF < dt.tod ∧ dt.tod < LUNCH_END then
        { allowed := false
          message := "LUNCH LOCKOUT: Office is closed from 12:00 PM to 1:00 PM. To be seen before lunch, you must arrive by 11:30 AM. Please schedule for 11:30 AM or earlier, or 1:00 PM or later."
          warning := none }
      else if timeOfDay 11 0 ≤ dt.tod ∧ dt.tod ≤ LUNCH_CUTOFF then
        { allowed := true
          message := "Appointment scheduled."
          warning := some "Note: Office closes for lunch at 12:00 PM. Arrive by 11:30 AM to be seen before lunch." }
      else
        { allowed := true, message := "No lunch lockout conflict.", warning := none } := by
  cases dt with
  | mk y m d t tz => cases tz <;> rfl

/-- C2: on a WALK_IN day, check_lunch_lockout rejects with a message
containing the literal LUNCH LOCKOUT exactly on the open interval
strictly between 11:30 and 13:00; exactly 11:30 and exactly 13:00 are
allowed; times in the closed interval from 11:00 to 11:30 are allowed
with a warning advising arrival by 11:30; every other time is allowed
with no warning; and on a non-WALK_IN day it returns allowed with the
message that the lockout does not apply. -/
theorem claim_C2 (dt : Datetime) :
    (get_day_type dt = DayType.WALK_IN →
      (((check_lunch_lockout dt).allowed = false ∧
        containsStr (check_lunch_lockout dt).message "LUNCH LOCKOUT" = true) ↔
        (timeOfDay 11 30 < dt.tod ∧ dt.tod < timeOfDay 13 0)) ∧
      ((dt.tod = timeOfDay 11 30 ∨ dt.tod = timeOfDay 13 0) →
        (check_lunch_lockout dt).allowed = true) ∧
      (timeOfDay 11 0 ≤ dt.tod ∧ dt.tod ≤ timeOfDay 11 30 →
        (check_lunch_lockout dt).allowed = true ∧
        ∃ w, (check_lunch_lockout dt).warning = some w ∧
          containsStr w "Arrive by 11:30 AM" = true) ∧
      (dt.tod < timeOfDay 11 0 ∨ timeOfDay 13 0 ≤ dt.tod →
        (check_lunch_lockout dt).allowed = true ∧
        (check_lunch_lockout dt).warning = none)) ∧
    (get_day_type dt ≠ DayType.WALK_IN →
      check_lunch_lockout dt =
        { allowed := true, message := "Lunch lockout does not apply to this day.",
          warning := none }) := by
  have hc1 : containsStr "LUNCH LOCKOUT: Office is closed from 12:00 PM to 1:00 PM. To be seen before lunch, you must arrive by 11:30 AM. Please schedule for 11:30 AM or earlier, or 1:00 PM or later." "LUNCH LOCKOUT" = true := by decide
  have hc2 : containsStr "Note: Office closes for lunch at 12:00 PM. Arrive by 11:30 AM to be seen before lunch." "Arrive by 11:30 AM" = true := by decide
  rw [check_lunch_lockout_eq dt]
  constructor
  · intro hw
    simp only [hw, ne_eq, not_true_eq_false, if_false]
    simp only [LUNCH_CUTOFF, LUNCH_END, timeOfDay] at *
    split_ifs with h1 h2 <;>
      refine ⟨?_, ?_, ?_, ?_⟩ <;>
      simp_all <;> omega
  · intro hn
    simp [hn]

/-- Witness for C2 at Monday 2025-01-20: 12:30 is rejected with the
LUNCH LOCKOUT marker, and 11:15 is allowed with the advisory warning. -/
theorem claim_C2_witness :
    ((check_lunch_lockout ⟨2025, 1, 20, timeOfDay 12 30, true⟩).allowed = false ∧
     containsStr (check_lunch_lockout ⟨2025, 1, 20, timeOfDay 12 30, true⟩).message
       "LUNCH LOCKOUT" = true) ∧
    (check_lunch_lockout ⟨2025, 1, 20, timeOfDay 11 15, true⟩).allowed = true := by
  constructor
  · exact ((claim_C2 ⟨2025, 1, 20, timeOfDay 12 30, true⟩).1 (by decide)).1.mpr (by decide)
  · exact (((claim_C2 ⟨2025, 1, 20, timeOfDay 11 15, true⟩).1 (by decide)).2.2.1 (by decide)).1

end Tipton

namespace Tipton

lemma is_office_open_eq (dt : Datetime) :
    is_office_open dt =
      if get_day_type dt = DayType.WALK_IN then
        if dt.tod < OFFICE_OPEN then
          { allowed := false
            message := "Office opens at 8:00 AM. Please schedule after that time."
            warning := none }
        else if dt.tod > LAST_APPOINTMENT then
          { allowed := false
            message := "The last appointment slot is 4:30 PM. Please choose an earlier time."
            warning := none }
        else
          { allowed := true, message := "Office is open for walk-in appointments.",
            warning := none }
      else if get_day_type dt = DayType.LATE_THURSDAY then
        if AFTER_HOURS_START ≤ dt.tod ∧ dt.tod ≤ AFTER_HOURS_END then
          { allowed := true
            message := "After-hours appointments available (5:00 PM - 7:30 PM)."
            warning := none }
        else
          { allowed := false
            message := "After-hours appointments are only from 5:00 PM to 7:30 PM on 1st and 3rd Thursday."
            warning := none }
      else if get_day_type dt = DayType.PHONE_ONLY then
        { allowed := false
          message := "Fridays are reserved for phone reporting only. No walk-in appointments."
          warning := none }
      else
        { allowed := false
          message := "Walk-in appointments are not available on this day due to court obligations. Please schedule for Monday or Wednesday."
          warning := none } := by
  cases dt with
  | mk y m d t tz => cases tz <;> rfl

/-- C3 counterexample: Monday 2025-01-20 at 17:00 is a WALK_IN day with
the time strictly after 16:30; is_office_open rejects it, but its
message does not contain the substring claimed (the source message
reads "The last appointment slot is 4:30 PM", which does not contain
"last slot is 4:30 PM"). -/
theorem claim_C3_counterexample :
    get_day_type ⟨2025, 1, 20, timeOfDay 17 0, true⟩ = DayType.WALK_IN ∧
    timeOfDay 16 30 < timeOfDay 17 0 ∧
    (is_office_open ⟨2025, 1, 20, timeOfDay 17 0, true⟩).allowed = false ∧
    containsStr (is_office_open ⟨2025, 1, 20, timeOfDay 17 0, true⟩).message
      "last slot is 4:30 PM" = false := by decide

set_option maxRecDepth 16384 in
/-- C3 (amended): on a WALK_IN day is_office_open rejects before 08:00
citing that the office opens at 8:00 AM, rejects strictly after 16:30
with a message containing "last appointment slot is 4:30 PM", and
allows the closed interval from 08:00 to 16:30; on a LATE_THURSDAY it
allows exactly the closed interval from 17:00 to 19:30 and otherwise
rejects citing the after-hours window; on a PHONE_ONLY day it always
rejects stating Fridays are phone-only; and on a COURT_DAY it always
rejects directing the caller to Monday or Wednesday. -/
theorem claim_C3 (dt : Datetime) :
    (get_day_type dt = DayType.WALK_IN →
      (dt.tod < timeOfDay 8 0 →
        (is_office_open dt).allowed = false ∧
        containsStr (is_office_open dt).message "opens at 8:00 AM" = true) ∧
      (timeOfDay 16 30 < dt.tod →
        (is_office_open dt).allowed = false ∧
        containsStr (is_office_open dt).message "last appointment slot is 4:30 PM" = true) ∧
      (timeOfDay 8 0 ≤ dt.tod ∧ dt.tod ≤ timeOfDay 16 30 →
        (is_office_open dt).allowed = true)) ∧
    (get_day_type dt = DayType.LATE_THURSDAY →
      ((is_office_open dt).allowed = true ↔
        timeOfDay 17 0 ≤ dt.tod ∧ dt.tod ≤ timeOfDay 19 30) ∧
      (¬(timeOfDay 17 0 ≤ dt.tod ∧ dt.tod ≤ timeOfDay 19 30) →
        (is_office_open dt).allowed = false ∧
        containsStr (is_office_open dt).message "5:00 PM to 7:30 PM" = true)) ∧
    (get_day_type dt = DayType.PHONE_ONLY →
      (is_office_open dt).allowed = false ∧
      containsStr (is_office_open dt).message
        "Fridays are reserved for phone reporting only" = true) ∧
    (get_day_type dt = DayType.COURT_DAY →
      (is_office_open dt).allowed = false ∧
      containsStr (is_office_open dt).message "Monday or Wednesday" = true) := by
  have hc1 : containsStr "Office opens at 8:00 AM. Please schedule after that time." "opens at 8:00 AM" = true := by decide
  have hc2 : containsStr "The last appointment slot is 4:30 PM. Please choose an earlier time." "last appointment slot is 4:30 PM" = true := by decide
  have hc3 : containsStr "After-hours appointments are only from 5:00 PM to 7:30 PM on 1st and 3rd Thursday." "5:00 PM to 7:30 PM" = true := by decide
  have hc4 : containsStr "Fridays are reserved for phone reporting only. No walk-in appointments." "Fridays are reserved for phone reporting only" = true := by decide
  have hc5 : containsStr "Walk-in appointments are not available on this day due to court obligations. Please schedule for Monday or Wednesday." "Monday or Wednesday" = true := by decide
  rw [is_office_open_eq dt]
  refine ⟨?_, ?_, ?_, ?_⟩
  all_goals intro hd
  all_goals simp only [hd, OFFICE_OPEN, LAST_APPOINTMENT, AFTER_HOURS_START,
    AFTER_HOURS_END, timeOfDay] at *
  all_goals split_ifs with h1 h2 <;> simp_all <;> omega

/-- Witness for C3 at concrete inputs: Monday 2025-01-20 at 07:00 is
rejected citing the 8:00 AM opening, at 17:00 is rejected with the
amended message, and the third Thursday 2025-01-16 at 18:00 is
allowed. -/
theorem claim_C3_witness :
    ((is_office_open ⟨2025, 1, 20, timeOfDay 7 0, true⟩).allowed = false ∧
     containsStr (is_office_open ⟨2025, 1, 20, timeOfDay 7 0, true⟩).message
       "opens at 8:00 AM" = true) ∧
    ((is_office_open ⟨2025, 1, 20, timeOfDay 17 0, true⟩).allowed = false ∧
     containsStr (is_office_open ⟨2025, 1, 20, timeOfDay 17 0, true⟩).message
       "last appointment slot is 4:30 PM" = true) ∧
    (is_office_open ⟨2025, 1, 16, timeOfDay 18 0, true⟩).allowed = true := by
  refine ⟨?_, ?_, ?_⟩
  · exact ((claim_C3 ⟨2025, 1, 20, timeOfDay 7 0, true⟩).1 (by decide)).1 (by decide)
  · exact ((claim_C3 ⟨2025, 1, 20, timeOfDay 17 0, true⟩).1 (by decide)).2.1 (by decide)
  · exact ((claim_C3 ⟨2025, 1, 16, timeOfDay 18 0, true⟩).2.1 (by decide)).1.mpr (by decide)

end Tipton

namespace Tipton

lemma infix_containsStr {s pat : String} (h : pat.data <:+: s.data) :
    containsStr s pat = true :=
  decide_eq_true h

lemma joinComma_mem_occurs {s : String} :
    ∀ {l : List String}, s ∈ l → s.data <:+: (joinComma l).data
  | [], h => absurd h (List.not_mem_nil s)
  | [a], h => by
    rcases List.mem_singleton.mp h with rfl
    exact List.infix_rfl
  | a :: b :: t, h => by
    have hj : joinComma (a :: b :: t) = a ++ ", " ++ joinComma (b :: t) := rfl
    rcases List.mem_cons.mp h with rfl | hmem
    · rw [hj, String.data_append, String.data_append, List.append_assoc]
      exact ( List.prefix_append s.data _).isInfix
    · have ih := joinComma_mem_occurs hmem
      rw [hj, String.data_append]
      exact ih.trans ( List.suffix_append _ _).isInfix

lemma get_missed_appointment_options_eq (dt : Datetime) :
    get_missed_appointment_options dt =
      if ((availableDays dt).map (fun day => strftimeAMBd dt.year dt.month day)).isEmpty then
        { allowed := false
          message := "No available Monday or Wednesday slots remain this month. Please contact the office to schedule for next month."
          warning := none }
      else
        { allowed := true
          message := "You have a missed appointment. You can reschedule for: " ++
            joinComma (((availableDays dt).map
              (fun day => strftimeAMBd dt.year dt.month day)).take 5) ++
            ". Please note: Missed appointments must be rescheduled for Monday or Wednesday only."
          warning := none } := by
  cases dt with
  | mk y m d t tz => cases tz <;> rfl

lemma availableDays_mem (dt : Datetime) (d : Nat) :
    d ∈ availableDays dt ↔
      dt.day < d ∧ d ≤ daysInMonth dt.year dt.month ∧
      ((mkDate dt.year dt.month d).weekday = 0 ∨
       (mkDate dt.year dt.month d).weekday = 2) := by
  have hr : d ∈ List.range' (dt.day + 1) (daysInMonth dt.year dt.month - dt.day) ↔
      dt.day < d ∧ d ≤ daysInMonth dt.year dt.month := by
    rw [ List.mem_range'_1]
    omega
  simp only [availableDays, List.mem_filter, hr, Bool.or_eq_true, beq_iff_eq]
  tauto

/-- C4: the rescheduling candidates enumerated by
get_missed_appointment_options are exactly the days strictly after the
current day of month, at most the last day of the current month, whose
weekday is Monday (0) or Wednesday (2); none of them is classified
LATE_THURSDAY; when none exists the result is not allowed and
instructs contacting the office for next month; otherwise the result
is allowed, its message lists the first at most 5 qualifying dates
formatted as weekday name, month name and day, joined by comma-space,
and contains the statement "Monday or Wednesday only". -/
theorem claim_C4 (dt : Datetime) :
    (∀ d, d ∈ availableDays dt ↔
      dt.day < d ∧ d ≤ daysInMonth dt.year dt.month ∧
      ((mkDate dt.year dt.month d).weekday = 0 ∨
       (mkDate dt.year dt.month d).weekday = 2)) ∧
    (∀ d ∈ availableDays dt,
      get_day_type (mkDate dt.year dt.month d) ≠ DayType.LATE_THURSDAY) ∧
    (availableDays dt = [] →
      get_missed_appointment_options dt =
        { allowed := false
          message := "No available Monday or Wednesday slots remain this month. Please contact the office to schedule for next month."
          warning := none }) ∧
    (availableDays dt ≠ [] →
      (get_missed_appointment_options dt).allowed = true ∧
      (get_missed_appointment_options dt).message =
        "You have a missed appointment. You can reschedule for: " ++
          joinComma (((availableDays dt).map
            (fun d => strftimeAMBd dt.year dt.month d)).take 5) ++
          ". Please note: Missed appointments must be rescheduled for Monday or Wednesday only." ∧
      containsStr (get_missed_appointment_options dt).message
        "Monday or Wednesday only" = true) := by
  refine ⟨availableDays_mem dt, ?_, ?_, ?_⟩
  · intro d hd
    have hw := ((availableDays_mem dt d).mp hd).2.2
    unfold get_day_type
    rcases hw with h | h <;> simp [h]
  · intro hemp
    rw [get_missed_appointment_options_eq dt]
    simp [hemp]
  · intro hne
    rw [get_missed_appointment_options_eq dt]
    have hns : ¬ ((availableDays dt).map
        (fun day => strftimeAMBd dt.year dt.month day)).isEmpty = true := by
      simp [List.isEmpty_iff, List.map_eq_nil_iff, hne]
    rw [if_neg hns]
    refine ⟨rfl, rfl, ?_⟩
    apply infix_containsStr
    rw [String.data_append, String.data_append]
    refine (?_ : _ <:+: (". Please note: Missed appointments must be rescheduled for Monday or Wednesday only.").data).trans
      (( List.suffix_append _ _).isInfix)
    decide

/-- Witness for C4 at Monday 2025-01-20: the remaining qualifying days
of January 2025 are found, day 22 qualifies, and the result is allowed
with the restriction statement in its message. -/
theorem claim_C4_witness :
    (22 ∈ availableDays ⟨2025, 1, 20, timeOfDay 9 0, true⟩) ∧
    (get_missed_appointment_options ⟨2025, 1, 20, timeOfDay 9 0, true⟩).allowed = true ∧
    containsStr (get_missed_appointment_options ⟨2025, 1, 20, timeOfDay 9 0, true⟩).message
      "Monday or Wednesday only" = true := by
  refine ⟨?_, ?_, ?_⟩
  · exact ((claim_C4 ⟨2025, 1, 20, timeOfDay 9 0, true⟩).1 22).mpr (by decide)
  · exact (((claim_C4 ⟨2025, 1, 20, timeOfDay 9 0, true⟩).2.2.2) (by decide)).1
  · exact (((claim_C4 ⟨2025, 1, 20, timeOfDay 9 0, true⟩).2.2.2) (by decide)).2.2

end Tipton

namespace Tipton

/-- C5: validate_appointment returns the is_office_open Decision
unchanged whenever that check rejects; otherwise returns the
check_lunch_lockout Decision unchanged whenever that check rejects;
otherwise returns an allowed Decision with message "Appointment time
is valid." carrying the warning produced by check_lunch_lockout. -/
theorem claim_C5 (dt : Datetime) :
    ((is_office_open dt).allowed = false →
      validate_appointment dt = is_office_open dt) ∧
    ((is_office_open dt).allowed = true →
      (check_lunch_lockout dt).allowed = false →
      validate_appointment dt = check_lunch_lockout dt) ∧
    ((is_office_open dt).allowed = true →
      (check_lunch_lockout dt).allowed = true →
      validate_appointment dt =
        { allowed := true
          message := "Appointment time is valid."
          warning := (check_lunch_lockout dt).warning }) := by
  refine ⟨fun h1 => ?_, fun h1 h2 => ?_, fun h1 h2 => ?_⟩
  · simp [validate_appointment, h1]
  · simp [validate_appointment, h1, h2]
  · simp [validate_appointment, h1, h2]

/-- Witness for C5 at Monday 2025-01-20, 09:00: both checks pass and
the composed validation returns the valid-appointment Decision. -/
theorem claim_C5_witness :
    validate_appointment ⟨2025, 1, 20, timeOfDay 9 0, true⟩ =
      { allowed := true
        message := "Appointment time is valid."
        warning := (check_lunch_lockout ⟨2025, 1, 20, timeOfDay 9 0, true⟩).warning } :=
  (claim_C5 ⟨2025, 1, 20, timeOfDay 9 0, true⟩).2.2 (by decide) (by decide)

/-- C6: every operation of the evaluator is a total function yielding a
Decision value — a rejection is an ordinary return value — and a
timestamp without timezone information yields exactly the same result
as the corresponding timestamp with the fixed zone attached, because
the zone is assigned without converting any date or time field. -/
theorem claim_C6 (dt : Datetime) :
    get_day_type { dt with hasTz := false } = get_day_type { dt with hasTz := true } ∧
    is_office_open { dt with hasTz := false } = is_office_open { dt with hasTz := true } ∧
    check_lunch_lockout { dt with hasTz := false } =
      check_lunch_lockout { dt with hasTz := true } ∧
    get_missed_appointment_options { dt with hasTz := false } =
      get_missed_appointment_options { dt with hasTz := true } ∧
    validate_appointment { dt with hasTz := false } =
      validate_appointment { dt with hasTz := true } ∧
    ((validate_appointment dt).allowed = true ∨
     (validate_appointment dt).allowed = false) := by
  cases dt with
  | mk y m d t tz =>
    refine ⟨rfl, rfl, rfl, rfl, rfl, ?_⟩
    cases h : (validate_appointment ⟨y, m, d, t, tz⟩).allowed
    · exact Or.inr rfl
    · exact Or.inl rfl

/-- C8: each check function is deterministic and stateless — two calls
on the same input produce identical Decision values. -/
theorem claim_C8 (dt : Datetime) :
    (callTwice is_office_open dt).1 = (callTwice is_office_open dt).2 ∧
    (callTwice check_lunch_lockout dt).1 = (callTwice check_lunch_lockout dt).2 ∧
    (callTwice get_missed_appointment_options dt).1 =
      (callTwice get_missed_appointment_options dt).2 ∧
    (callTwice validate_appointment dt).1 = (callTwice validate_appointment dt).2 :=
  ⟨rfl, rfl, rfl, rfl⟩

set_option maxRecDepth 32768 in
/-- C9: the Friday instruction and the payment message are constants;
the payment message contains the literal CASH ONLY, the literal amount
of 75 dollars, and the explicit statement that payment is not required
in order to be seen, and the Friday instruction contains "phone". -/
theorem claim_C9 :
    containsStr format_payment_msg "CASH ONLY" = true ∧
    containsStr format_payment_msg "$75" = true ∧
    containsStr format_payment_msg "NOT required to have payment in order to be seen" = true ∧
    containsStr get_friday_instruction "phone" = true := by
  refine ⟨by decide, by decide, by decide, by decide⟩

end Tipton

namespace Tipton

lemma ne_empty_iff_data (s : String) : s ≠ "" ↔ s.data ≠ [] := by
  constructor
  · intro h hd
    exact h (String.ext hd)
  · intro h hs
    exact h (by rw [hs])

lemma append_ne_empty_left (a b : String) (h : a ≠ "") : a ++ b ≠ "" := by
  rw [ne_empty_iff_data] at h ⊢
  rw [String.data_append]
  intro hnil
  exact h (( List.append_eq_nil.mp hnil).1)

/-- C7: every Decision returned by the four checks has a non-empty
message; is_office_open and get_missed_appointment_options never carry
a warning; and whenever check_lunch_lockout or validate_appointment
carries a warning, the Decision is allowed, the day is WALK_IN, and
the time lies in the near-cutoff interval from 11:00 to 11:30. -/
theorem claim_C7 (dt : Datetime) :
    ((is_office_open dt).message ≠ "" ∧ (is_office_open dt).warning = none) ∧
    ((check_lunch_lockout dt).message ≠ "" ∧
      ∀ w, (check_lunch_lockout dt).warning = some w →
        (check_lunch_lockout dt).allowed = true ∧
        get_day_type dt = DayType.WALK_IN ∧
        timeOfDay 11 0 ≤ dt.tod ∧ dt.tod ≤ timeOfDay 11 30) ∧
    ((get_missed_appointment_options dt).message ≠ "" ∧
      (get_missed_appointment_options dt).warning = none) ∧
    ((validate_appointment dt).message ≠ "" ∧
      ∀ w, (validate_appointment dt).warning = some w →
        (validate_appointment dt).allowed = true ∧
        get_day_type dt = DayType.WALK_IN ∧
        timeOfDay 11 0 ≤ dt.tod ∧ dt.tod ≤ timeOfDay 11 30) := by
  have hO : (is_office_open dt).message ≠ "" ∧ (is_office_open dt).warning = none := by
    rw [is_office_open_eq dt]
    split_ifs <;> exact ⟨by decide, rfl⟩
  have hL : (check_lunch_lockout dt).message ≠ "" ∧
      ∀ w, (check_lunch_lockout dt).warning = some w →
        (check_lunch_lockout dt).allowed = true ∧
        get_day_type dt = DayType.WALK_IN ∧
        timeOfDay 11 0 ≤ dt.tod ∧ dt.tod ≤ timeOfDay 11 30 := by
    rw [check_lunch_lockout_eq dt]
    split_ifs with h1 h2 h3
    · exact ⟨by decide, fun w hw => by simp at hw⟩
    · exact ⟨by decide, fun w hw => by simp at hw⟩
    · exact ⟨by decide, fun w hw => ⟨rfl, not_not.mp h1, h3.1, h3.2⟩⟩
    · exact ⟨by decide, fun w hw => by simp at hw⟩
  have hM : (get_missed_appointment_options dt).message ≠ "" ∧
      (get_missed_appointment_options dt).warning = none := by
    rw [get_missed_appointment_options_eq dt]
    split_ifs
    · exact ⟨by decide, rfl⟩
    · exact ⟨append_ne_empty_left _ _ (append_ne_empty_left _ _ (by decide)), rfl⟩
  refine ⟨hO, hL, hM, ?_⟩
  by_cases ho : (is_office_open dt).allowed = true
  · by_cases hl : (check_lunch_lockout dt).allowed = true
    · have hv : validate_appointment dt =
          { allowed := true
            message := "Appointment time is valid."
            warning := (check_lunch_lockout dt).warning } := by
        simp [validate_appointment, ho, hl]
      rw [hv]
      refine ⟨?_, fun w hw => ⟨rfl, (hL.2 w hw).2⟩⟩
      dsimp only
      decide
    · have hlf : (check_lunch_lockout dt).allowed = false := by
        revert hl
        cases (check_lunch_lockout dt).allowed <;> simp
      have hv : validate_appointment dt = check_lunch_lockout dt := by
        simp [validate_appointment, ho, hlf]
      rw [hv]
      exact hL
  · have hof : (is_office_open dt).allowed = false := by
      revert ho
      cases (is_office_open dt).allowed <;> simp
    have hv : validate_appointment dt = is_office_open dt := by
      simp [validate_appointment, hof]
    rw [hv]
    exact ⟨hO.1, fun w hw => by rw [hO.2] at hw; simp at hw⟩

/-- Witness for C7 at Monday 2025-01-20, 11:15: the lunch check carries
the near-cutoff warning, so the Decision is allowed, the day is
WALK_IN and the time lies in the advisory interval. -/
theorem claim_C7_witness :
    (check_lunch_lockout ⟨2025, 1, 20, timeOfDay 11 15, true⟩).allowed = true ∧
    get_day_type ⟨2025, 1, 20, timeOfDay 11 15, true⟩ = DayType.WALK_IN ∧
    timeOfDay 11 0 ≤ timeOfDay 11 15 ∧ timeOfDay 11 15 ≤ timeOfDay 11 30 :=
  (claim_C7 ⟨2025, 1, 20, timeOfDay 11 15, true⟩).2.1.2
    "Note: Office closes for lunch at 12:00 PM. Arrive by 11:30 AM to be seen before lunch."
    (by decide)

end Tipton

namespace Tipton

/-- C10: when a qualifying rescheduling day with a single-digit day of
month is among the listed options, the day number is rendered
zero-padded — pad2 prepends a zero, and the message of
get_missed_appointment_options contains the month name followed by the
zero-padded day. -/
theorem claim_C10 (dt : Datetime) (d : Nat)
    (hd : d ∈ (availableDays dt).take 5) (h9 : d < 10) :
    pad2 d = "0" ++ Nat.repr d ∧
    containsStr (get_missed_appointment_options dt).message
      (monthName dt.month ++ " " ++ ("0" ++ Nat.repr d)) = true := by
  have hpad : pad2 d = "0" ++ Nat.repr d := by
    unfold pad2
    rw [if_pos h9]
  refine ⟨hpad, ?_⟩
  have hd0 : d ∈ availableDays dt := List.mem_of_mem_take hd
  have hmem5 : strftimeAMBd dt.year dt.month d ∈
      ((availableDays dt).map (fun day => strftimeAMBd dt.year dt.month day)).take 5 := by
    rw [← List.map_take]
    exact List.mem_map_of_mem _ hd
  have hne : ¬ ((availableDays dt).map
      (fun day => strftimeAMBd dt.year dt.month day)).isEmpty = true := by
    intro h
    rw [List.isEmpty_iff, List.map_eq_nil_iff] at h
    rw [h] at hd0
    simp at hd0
  have hsuf : (monthName dt.month ++ " " ++ ("0" ++ Nat.repr d)).data <:+:
      (strftimeAMBd dt.year dt.month d).data := by
    have hfmt : strftimeAMBd dt.year dt.month d =
        dayName (mkDate dt.year dt.month d).weekday ++ ", " ++
          monthName dt.month ++ " " ++ ("0" ++ Nat.repr d) := by
      unfold strftimeAMBd
      rw [hpad]
    rw [hfmt]
    have hflat : (dayName (mkDate dt.year dt.month d).weekday ++ ", " ++
        monthName dt.month ++ " " ++ ("0" ++ Nat.repr d)).data =
        (dayName (mkDate dt.year dt.month d).weekday ++ ", ").data ++
          (monthName dt.month ++ " " ++ ("0" ++ Nat.repr d)).data := by
      simp [String.data_append, List.append_assoc]
    rw [hflat]
    exact ( List.suffix_append _ _).isInfix
  rw [get_missed_appointment_options_eq dt, if_neg hne]
  apply infix_containsStr
  rw [String.data_append, String.data_append]
  exact (hsuf.trans (joinComma_mem_occurs hmem5)).trans ( List.infix_append _ _ _)

/-- Witness for C10 at Tuesday 2025-07-01: July 2 qualifies, its day
number is single-digit, and the option list renders it zero-padded. -/
theorem claim_C10_witness :
    pad2 2 = "0" ++ Nat.repr 2 ∧
    containsStr (get_missed_appointment_options ⟨2025, 7, 1, timeOfDay 9 0, true⟩).message
      (monthName 7 ++ " " ++ ("0" ++ Nat.repr 2)) = true :=
  claim_C10 ⟨2025, 7, 1, timeOfDay 9 0, true⟩ 2 (by decide) (by decide)

end Tipton
